import Mathlib

/-!
Verification of the data-table component library.

The repository consists of three React components:
* `DataTableActionDialog` (bulk-action confirmation dialog with busy flag),
* `DataTableSearch` (debounced multi-column search),
* `DataTableServerSide` together with `TableFilters` (server-side table with
  pagination translation, select filters and date-range filters).

Each component's state and handlers are embedded shallowly below: React state
hooks become fields of a state structure, event handlers become step functions
on that structure, and callback invocations become explicit emission values
returned by the step functions.
-/

namespace DataTable

/-! ## Bulk-action confirmation dialog (`DataTableActionDialog`)

State fields follow the source: `open` and `loading` are `useState` hooks,
`selection` models the ids of the rows currently selected in the table
(`table.getFilteredSelectedRowModel().rows` mapped to `row.original.id`),
`errorLog` models the operator-visible diagnostic channel (`console.error`),
and `pending` models the outstanding `onConfirm` promise awaited inside
`handleConfirm`. -/

structure DialogState where
  isOpen : Bool
  loading : Bool
  selection : List String
  errorLog : List String
  pending : Bool
deriving DecidableEq

/-- Events the dialog reacts to: clicking the confirm button, the awaited
`onConfirm` promise settling (with success or an error message), clicking the
cancel button, and the table's row selection changing. -/
inductive DialogEvent where
  | clickConfirm
  | resolve (outcome : Except String Unit)
  | clickCancel
  | setSelection (ids : List String)

/-- One reaction of `DataTableActionDialog`.
`clickConfirm`: the confirm button has `disabled={loading}`, and
`handleConfirm` begins with `setLoading(true)` and starts awaiting
`onConfirm(selectedIds)` (modelled by `pending := true`).
`resolve`: the awaited promise settles; on success the source runs
`setOpen(false)` and `table.toggleAllRowsSelected(false)`; on rejection the
`catch` block runs `console.error("Action failed:", error)`; the `finally`
block runs `setLoading(false)` in both cases.
`clickCancel`: the cancel button has `disabled={loading}` and `onClick`
`setOpen(false)`. -/
def dialogStep (s : DialogState) : DialogEvent → DialogState
  | .clickConfirm =>
    if s.loading then s
    else { s with loading := true, pending := true }
  | .resolve outcome =>
    if s.pending then
      match outcome with
      | .ok _ =>
        { s with isOpen := false, selection := [], loading := false, pending := false }
      | .error e =>
        { s with errorLog := s.errorLog ++ ["Action failed: " ++ e],
                 loading := false, pending := false }
    else s
  | .clickCancel => if s.loading then s else { s with isOpen := false }
  | .setSelection ids => { s with selection := ids }

/-- The dialog trigger's `disabled={selectedCount === 0}` where
`selectedCount = selectedRows.length`. -/
def triggerDisabled (s : DialogState) : Bool := s.selection.length == 0

/-- The confirm button's `disabled={loading}`. -/
def confirmDisabled (s : DialogState) : Bool := s.loading

/-- The cancel button's `disabled={loading}`. -/
def cancelDisabled (s : DialogState) : Bool := s.loading

/-- Initial dialog state: `useState(false)` for both `open` and `loading`,
no outstanding action, arbitrary initial row selection. -/
def initDialog (sel : List String) : DialogState :=
  { isOpen := false, loading := false, selection := sel, errorLog := [], pending := false }

/-- States the dialog can actually be in: the initial state and anything
obtained from a reachable state by one event. -/
inductive DialogReachable : DialogState → Prop where
  | init (sel : List String) : DialogReachable (initDialog sel)
  | step (s : DialogState) (e : DialogEvent) :
      DialogReachable s → DialogReachable (dialogStep s e)

/-- A concrete dialog state with a confirmation outstanding. -/
def demoPendingDialog : DialogState :=
  { isOpen := true, loading := true, selection := ["u1", "u2"], errorLog := [],
    pending := true }

/-- The state reached from the initial dialog by clicking confirm. -/
def demoReachedDialog : DialogState :=
  dialogStep (initDialog ["u1"]) DialogEvent.clickConfirm

/-! ## Server-side pagination (`DataTableServerSide`) -/

/-- The externally supplied pagination descriptor (`ServerSidePagination` in
the source); `page` is one-based. -/
structure ServerSidePagination where
  page : Int
  pageSize : Int
  totalItems : Int
  totalPages : Int
  hasNextPage : Bool
  hasPreviousPage : Bool
deriving DecidableEq

/-- TanStack's `PaginationState`: a zero-based `pageIndex` plus `pageSize`. -/
structure PaginationState where
  pageIndex : Int
  pageSize : Int
deriving DecidableEq

/-- The pagination slice of the table state built by `DataTableServerSide`:
`pageIndex: pagination.page - 1, pageSize: pagination.pageSize`. -/
def tableStatePagination (p : ServerSidePagination) : PaginationState :=
  { pageIndex := p.page - 1, pageSize := p.pageSize }

/-- The `onPaginationChange` handler passed to `useReactTable`: it rebuilds
the current zero-based state from the descriptor, applies the updater, and
emits the resulting `(pageIndex, pageSize)` pair through the callback.
(The value-updater case of `typeof updater === "function"` is the constant
function.) -/
def onPaginationChangeEmit (p : ServerSidePagination)
    (updater : PaginationState → PaginationState) : PaginationState :=
  let currentPagination : PaginationState :=
    { pageIndex := p.page - 1, pageSize := p.pageSize }
  let newPagination := updater currentPagination
  { pageIndex := newPagination.pageIndex, pageSize := newPagination.pageSize }

/-- Modelled from the spec: the page number shown externally for an emitted
zero-based index. The display component (`DataTablePagination.tsx`) is not
among the provided sources; the spec states "given an emitted zero-based
index `i`, the externally displayed page equals `i + 1`". -/
def displayedPage (i : Int) : Int := i + 1

/-- A sort descriptor entry (`SortingState` element). -/
structure SortEntry where
  id : String
  desc : Bool
deriving DecidableEq

/-- The mutable state owned by `DataTableServerSide` (`useState` hooks for
sorting and row selection) together with the pagination descriptor prop it
consumes. -/
structure TableComponentState where
  internalSorting : List SortEntry
  rowSelection : List String
  pagination : ServerSidePagination
deriving DecidableEq

/-- The `onSortingChange` handler: applies the updater to `internalSorting`,
stores the result, and emits it through `onSortingChange?.(newSorting)`. -/
def onSortingChangeOp (s : TableComponentState)
    (updater : List SortEntry → List SortEntry) :
    TableComponentState × List SortEntry :=
  let newSorting := updater s.internalSorting
  ({ s with internalSorting := newSorting }, newSorting)

/-- The `onPaginationChange` handler as an operation on the component state:
it only emits; no component state is written. -/
def onPaginationChangeOp (s : TableComponentState)
    (updater : PaginationState → PaginationState) :
    TableComponentState × PaginationState :=
  (s, onPaginationChangeEmit s.pagination updater)

/-- The `onRowSelectionChange: setRowSelection` handler. -/
def onRowSelectionChangeOp (s : TableComponentState) (sel : List String) :
    TableComponentState × Unit :=
  ({ s with rowSelection := sel }, ())

/-- A concrete pagination descriptor. -/
def demoPagination : ServerSidePagination :=
  { page := 3, pageSize := 10, totalItems := 57, totalPages := 6,
    hasNextPage := true, hasPreviousPage := true }

/-! ## Debounced search (`DataTableSearch`)

The component keeps `searchFilters` (a column-id to text mapping built by
object spread, so an insertion-ordered association list), `globalSearch`,
and `activeSelectedIndexes` as `useState` hooks.  `useDebounce` tracks
`searchFilters` with a 300 ms trailing-edge timer: every change restarts the
timer, and when the timer elapses the debounced copy is replaced.  The
emission effect has dependencies `[debouncedSearchFilters,
activeSelectedIndexes]`, so it runs when the debounce settles and when the
active-column selection is toggled; `handleClearSearch` additionally calls
`onSearchChange("", [])` directly. -/

/-- A configured search column (`SearchColumn` in the source). -/
structure SearchColumn where
  column : String
  label : String
deriving DecidableEq

/-- The state of `DataTableSearch`: the raw filters, the global search text,
the active column indexes, the debounced copy of the filters, and the
remaining ticks of the single debounce timer (`none` when no timer is
in flight). -/
structure SearchState where
  searchFilters : List (String × String)
  globalSearch : String
  activeSelectedIndexes : List Nat
  debouncedSearchFilters : List (String × String)
  timer : Option Nat
deriving DecidableEq

/-- The debounce quiescence window (`useDebounce` default, 300 ms). -/
def debounceDelay : Nat := 300

/-- JavaScript object-spread update `{...prev, [k]: v}`: an existing key
keeps its position and gets the new value, a new key is appended. -/
def upsert : List (String × String) → String → String → List (String × String)
  | [], k, v => [(k, v)]
  | (k', v') :: rest, k, v =>
    if k' = k then (k, v) :: rest else (k', v') :: upsert rest k v

/-- The active column ids:
`searchColumns.filter((_, index) => activeSelectedIndexes.includes(index)).map(col => col.column)`. -/
def activeColumnsOf (cols : List SearchColumn) (idxs : List Nat) : List String :=
  ((cols.enum.filter fun p => idxs.contains p.1).map fun p => p.2.column)

/-- The emitted search text:
`Object.values(debouncedSearchFilters).find(v => v.trim() !== "") || ""`. -/
def searchValueOf (filters : List (String × String)) : String :=
  (((filters.map Prod.snd).find? fun v => v.trim != "")).getD ""

/-- The body of the emission effect: it calls the `onSearchChange` callback
with the first non-empty debounced search text and the currently active
column ids. -/
def effectEmission (cols : List SearchColumn) (s : SearchState) : String × List String :=
  (searchValueOf s.debouncedSearchFilters, activeColumnsOf cols s.activeSelectedIndexes)

/-- Events of the search component: typing into a column's input
(`handleSearchFilter`), toggling a column checkbox (`handleCheckboxChange`),
clicking the clear button (`handleClearSearch`), and one unit of time
passing. -/
inductive SEvent where
  | input (columnId value : String)
  | toggle (index : Nat)
  | clear
  | tick
deriving DecidableEq

/-- One reaction of `DataTableSearch`, returning the new state and the list
of `onSearchChange` invocations it performs.
`input` updates `searchFilters` and restarts the debounce timer; the effect
does not run (its dependencies are unchanged), so nothing is emitted.
`toggle` updates `activeSelectedIndexes`, which is a dependency of the
emission effect, so the effect runs immediately with the current debounced
filters.  `clear` resets `searchFilters` and `globalSearch` and calls
`onSearchChange("", [])` directly; resetting `searchFilters` also restarts
the debounce timer.  `tick` advances the timer; when the window elapses the
debounced copy is replaced and the effect runs. -/
def sstep (cols : List SearchColumn) (s : SearchState) :
    SEvent → SearchState × List (String × List String)
  | .input c v =>
    ({ s with searchFilters := upsert s.searchFilters c v,
              timer := some debounceDelay }, [])
  | .toggle i =>
    let newIdxs :=
      if s.activeSelectedIndexes.contains i then
        s.activeSelectedIndexes.filter fun j => j != i
      else s.activeSelectedIndexes ++ [i]
    let s' := { s with activeSelectedIndexes := newIdxs }
    (s', [effectEmission cols s'])
  | .clear =>
    ({ s with searchFilters := [], globalSearch := "",
              timer := some debounceDelay }, [("", [])])
  | .tick =>
    match s.timer with
    | none => (s, [])
    | some n =>
      if n ≤ 1 then
        let s' := { s with timer := none, debouncedSearchFilters := s.searchFilters }
        (s', [effectEmission cols s'])
      else ({ s with timer := some (n - 1) }, [])

/-- An event settles the debounce: it is a clock tick at which the pending
quiescence window elapses. -/
def settleStep (s : SearchState) (e : SEvent) : Prop :=
  e = SEvent.tick ∧ ∃ n, s.timer = some n ∧ n ≤ 1

/-- The clear button's
`disabled={Object.keys(searchFilters).length === 0 && globalSearch === ""}`. -/
def clearDisabled (s : SearchState) : Bool :=
  s.searchFilters.isEmpty && (s.globalSearch == "")

/-- The `handleSearchChange` wrapper of `DataTableServerSide`: it takes only
the search text and emits it together with the ids of all configured search
columns (`searchColumns.map(col => col.column)`). -/
def handleSearchChange (searchColumns : List SearchColumn) (value : String) :
    String × List String :=
  (value, searchColumns.map fun c => c.column)

/-- The emission reaching the external `onSearchChange` boundary of the
server-side table: `DataTableSearch` invokes its `onSearchChange` prop, which
is `handleSearchChange`, with the text of the inner emission (the
active-column argument of the inner emission is dropped by the wrapper's
one-parameter signature). -/
def boundarySearchEmission (cols : List SearchColumn) (s : SearchState) :
    String × List String :=
  handleSearchChange cols (effectEmission cols s).1

/-- The configured search columns used in concrete evaluations. -/
def demoSearchCols : List SearchColumn :=
  [{ column := "name", label := "Name" }, { column := "email", label := "Email" }]

/-- A search state in which the user typed "jo" and the debounce settled:
the clear button is enabled here. -/
def demoClearableState : SearchState :=
  { searchFilters := [("name", "jo")], globalSearch := "jo",
    activeSelectedIndexes := [0], debouncedSearchFilters := [("name", "jo")],
    timer := none }

/-- A search state whose debounce timer is one tick from settling. -/
def demoTickState : SearchState :=
  { searchFilters := [("name", "jo")], globalSearch := "jo",
    activeSelectedIndexes := [0], debouncedSearchFilters := [],
    timer := some 1 }

/-! ## Select and date-range filters (`TableFilters`)

`handleFiltersUpdate` flattens the debounced date-range values into
`<column>Start` / `<column>End` keys formatted with
`toLocaleDateString("en-CA")` (the `YYYY-MM-DD` form), merges them with the
debounced select-filter values by object spread, serializes the combined
mapping, and invokes `onFiltersChange` only when the serialization differs
from the previously emitted one (`previousFiltersRef`, initially the empty
string). -/

/-- A calendar date (year, month, day). -/
structure CalDate where
  year : Nat
  month : Nat
  day : Nat
deriving DecidableEq

/-- A date-range picker value; either bound may be unset. -/
structure DateRange where
  rangeFrom : Option CalDate
  rangeTo : Option CalDate
deriving DecidableEq

/-- Zero-pad a number to two digits. -/
def pad2 (n : Nat) : String :=
  if n < 10 then "0" ++ toString n else toString n

/-- Zero-pad a number to four digits. -/
def pad4 (n : Nat) : String :=
  if n < 10 then "000" ++ toString n
  else if n < 100 then "00" ++ toString n
  else if n < 1000 then "0" ++ toString n
  else toString n

/-- `date.toLocaleDateString("en-CA")`: the fixed `YYYY-MM-DD` rendering of a
calendar date. -/
def formatEnCA (d : CalDate) : String :=
  pad4 d.year ++ "-" ++ pad2 d.month ++ "-" ++ pad2 d.day

/-- The date-filter flattening loop of `handleFiltersUpdate`: for each
column whose range has both bounds, assign `<column>Start` and
`<column>End`. -/
def dateFiltersOf : List (String × DateRange) → List (String × String)
  | [] => []
  | (c, r) :: rest =>
    match r.rangeFrom, r.rangeTo with
    | some f, some t =>
      (c ++ "Start", formatEnCA f) :: (c ++ "End", formatEnCA t) :: dateFiltersOf rest
    | _, _ => dateFiltersOf rest

/-- Look a key up in an insertion-ordered association list. -/
def lookupKey (l : List (String × String)) (k : String) : Option String :=
  (l.find? fun p => p.1 == k).map fun p => p.2

/-- JavaScript object spread `{...a, ...b}` on insertion-ordered association
lists: keys of `a` keep their position (taking `b`'s value when `b` also has
the key), then keys only in `b` follow in `b`'s order. -/
def mergeSpread (a b : List (String × String)) : List (String × String) :=
  (a.map fun p => (p.1, (lookupKey b p.1).getD p.2)) ++
    b.filter fun p => (lookupKey a p.1).isNone

/-- The combined mapping `{...debouncedFilterValues, ...dateFilters}` built
by `handleFiltersUpdate` from the debounced select-filter values and the
debounced date-range values. -/
def allFiltersOf (selectValues : List (String × String))
    (rangeValues : List (String × DateRange)) : List (String × String) :=
  mergeSpread selectValues (dateFiltersOf rangeValues)

/-- `JSON.stringify` of the combined mapping (keys in insertion order). -/
def jsonStringify (l : List (String × String)) : String :=
  "\x7b" ++
    String.intercalate ","
      (l.map fun p => "\"" ++ p.1 ++ "\":\"" ++ p.2 ++ "\"") ++
  "\x7d"

/-- One run of `handleFiltersUpdate`: given the previously emitted
serialization, it returns the new `previousFiltersRef` value and the
`onFiltersChange` invocation, if any — the callback fires only when the
serialized mapping differs from the previous one. -/
def handleFiltersUpdate (prev : String) (selectValues : List (String × String))
    (rangeValues : List (String × DateRange)) :
    String × Option (List (String × String)) :=
  let allFilters := allFiltersOf selectValues rangeValues
  let filtersString := jsonStringify allFilters
  if filtersString ≠ prev then (filtersString, some allFilters) else (prev, none)

/-- A sequence of debounced filter updates processed by
`handleFiltersUpdate`, threading `previousFiltersRef` and collecting the
emitted mappings in order. -/
def filtersRun (prev : String) :
    List (List (String × String) × List (String × DateRange)) →
      String × List (List (String × String))
  | [] => (prev, [])
  | u :: us =>
    match handleFiltersUpdate prev u.1 u.2 with
    | (p', some e) =>
      let rest := filtersRun p' us
      (rest.1, e :: rest.2)
    | (p', none) => filtersRun p' us

/-! ## Theorems for the dialog claims -/

/-- Helper invariant: in every reachable dialog state, an outstanding
bulk-action invocation implies the busy flag is set. -/
theorem dialogPendingLoading (s : DialogState) (h : DialogReachable s) :
    s.pending = true → s.loading = true := by
  induction h with
  | init sel => intro hp; simp [initDialog] at hp
  | step s e hs ih =>
    cases e with
    | clickConfirm =>
      by_cases hl : s.loading = true
      · have hstep : dialogStep s DialogEvent.clickConfirm = s := by
          simp [dialogStep, hl]
        rw [hstep]; exact ih
      · simp [dialogStep, hl]
    | resolve outcome =>
      by_cases hp : s.pending = true
      · cases outcome <;> simp [dialogStep, hp]
      · have hstep : dialogStep s (DialogEvent.resolve outcome) = s := by
          simp [dialogStep, hp]
        rw [hstep]; exact ih
    | clickCancel =>
      by_cases hl : s.loading = true
      · have hstep : dialogStep s DialogEvent.clickCancel = s := by
          simp [dialogStep, hl]
        rw [hstep]; exact ih
      · have hstep : dialogStep s DialogEvent.clickCancel = { s with isOpen := false } := by
          simp [dialogStep, hl]
        rw [hstep]; exact ih
    | setSelection ids => exact ih

/-- C2: when the awaited bulk action resolves successfully, the dialog
afterwards has an empty selection set and a closed confirmation surface. -/
theorem c2BulkSuccessClearsAndCloses :
    ∀ s : DialogState, s.pending = true →
      (dialogStep s (DialogEvent.resolve (Except.ok ()))).selection = [] ∧
      (dialogStep s (DialogEvent.resolve (Except.ok ()))).isOpen = false := by
  intro s hp
  simp [dialogStep, hp]

/-- C2 witness: the success path evaluated at a concrete pending state. -/
theorem c2BulkSuccessWitness :
    (dialogStep demoPendingDialog (DialogEvent.resolve (Except.ok ()))).selection = [] ∧
    (dialogStep demoPendingDialog (DialogEvent.resolve (Except.ok ()))).isOpen = false :=
  c2BulkSuccessClearsAndCloses demoPendingDialog rfl

/-- C3: when the awaited bulk action rejects, the selection set and the open
flag are unchanged, the busy flag and the outstanding-invocation flag are
cleared (so no automatic retry occurs), and the error is appended to the
operator-visible diagnostic log; no other field changes. -/
theorem c3BulkFailureAtomic :
    ∀ (s : DialogState) (msg : String), s.pending = true →
      (dialogStep s (DialogEvent.resolve (Except.error msg))).selection = s.selection ∧
      (dialogStep s (DialogEvent.resolve (Except.error msg))).isOpen = s.isOpen ∧
      (dialogStep s (DialogEvent.resolve (Except.error msg))).loading = false ∧
      (dialogStep s (DialogEvent.resolve (Except.error msg))).pending = false ∧
      (dialogStep s (DialogEvent.resolve (Except.error msg))).errorLog
        = s.errorLog ++ ["Action failed: " ++ msg] := by
  intro s msg hp
  simp [dialogStep, hp]

/-- C3 witness: the failure path evaluated at a concrete pending state. -/
theorem c3BulkFailureWitness :
    (dialogStep demoPendingDialog (DialogEvent.resolve (Except.error "boom"))).selection
      = demoPendingDialog.selection ∧
    (dialogStep demoPendingDialog (DialogEvent.resolve (Except.error "boom"))).isOpen
      = demoPendingDialog.isOpen ∧
    (dialogStep demoPendingDialog (DialogEvent.resolve (Except.error "boom"))).loading = false ∧
    (dialogStep demoPendingDialog (DialogEvent.resolve (Except.error "boom"))).pending = false ∧
    (dialogStep demoPendingDialog (DialogEvent.resolve (Except.error "boom"))).errorLog
      = demoPendingDialog.errorLog ++ ["Action failed: " ++ "boom"] :=
  c3BulkFailureAtomic demoPendingDialog "boom" rfl

/-- C7: the bulk-action trigger is disabled exactly when the set of selected
row identifiers is empty. -/
theorem c7TriggerDisabledIff :
    ∀ s : DialogState, triggerDisabled s = true ↔ s.selection = [] := by
  intro s
  simp [triggerDisabled, List.length_eq_zero]

/-- C8: in every reachable dialog state with an invocation outstanding, both
the confirm and the cancel interaction are disabled and a confirm click is a
no-op (so a second concurrent invocation can never start), and the busy flag
is cleared on every completion of the invocation, successful or failed. -/
theorem c8BusyMutualExclusion :
    ∀ s : DialogState, DialogReachable s → s.pending = true →
      confirmDisabled s = true ∧ cancelDisabled s = true ∧
      dialogStep s DialogEvent.clickConfirm = s ∧
      (∀ o : Except String Unit, (dialogStep s (DialogEvent.resolve o)).loading = false) := by
  intro s hr hp
  have hl : s.loading = true := dialogPendingLoading s hr hp
  refine ⟨hl, hl, ?_, ?_⟩
  · simp [dialogStep, hl]
  · intro o; cases o <;> simp [dialogStep, hp]

/-- C8 witness: the state reached by clicking confirm from the initial state
has the invocation outstanding; the mutual-exclusion and busy-clearing facts
evaluated there. -/
theorem c8BusyMutualExclusionWitness :
    confirmDisabled demoReachedDialog = true ∧
    cancelDisabled demoReachedDialog = true ∧
    dialogStep demoReachedDialog DialogEvent.clickConfirm = demoReachedDialog ∧
    (dialogStep demoReachedDialog (DialogEvent.resolve (Except.ok ()))).loading = false :=
  have h := c8BusyMutualExclusion demoReachedDialog
    (DialogReachable.step (initDialog ["u1"]) DialogEvent.clickConfirm
      (DialogReachable.init ["u1"])) rfl
  ⟨h.1, h.2.1, h.2.2.1, h.2.2.2 (Except.ok ())⟩

/-! ## Theorems for the pagination claims -/

/-- C4: the table state uses the zero-based index `page − 1`; an emitted
page-change request is the updater applied to that zero-based state (so the
identity updater emits `page − 1`); displaying the table-state index yields
back `page`; and a descriptor built from a displayed index `i + 1` translates
back to the index `i`: the two translations compose to the identity. -/
theorem c4PaginationRoundTrip :
    ∀ p : ServerSidePagination, 1 ≤ p.page →
      (tableStatePagination p).pageIndex = p.page - 1 ∧
      (onPaginationChangeEmit p (fun x => x)).pageIndex = p.page - 1 ∧
      displayedPage (tableStatePagination p).pageIndex = p.page ∧
      (∀ i : Int,
        (tableStatePagination
          { page := displayedPage i, pageSize := p.pageSize,
            totalItems := p.totalItems, totalPages := p.totalPages,
            hasNextPage := p.hasNextPage,
            hasPreviousPage := p.hasPreviousPage }).pageIndex = i) := by
  intro p hp
  refine ⟨rfl, rfl, ?_, ?_⟩
  · simp [displayedPage, tableStatePagination]
  · intro i; simp [displayedPage, tableStatePagination]

/-- C4 witness: the round trip evaluated at the concrete descriptor with
`page = 3`. -/
theorem c4PaginationRoundTripWitness :
    (tableStatePagination demoPagination).pageIndex = demoPagination.page - 1 ∧
    displayedPage (tableStatePagination demoPagination).pageIndex = demoPagination.page :=
  have h := c4PaginationRoundTrip demoPagination (by decide)
  ⟨h.1, h.2.2.1⟩

/-- C9: no operation of the server-side table writes the pagination
descriptor: sorting changes, row-selection changes, and page-change requests
all leave `pagination` untouched; the page-change handler leaves the whole
component state unchanged and expresses its intent only through the emitted
callback value. -/
theorem c9PaginationReadOnly :
    ∀ (s : TableComponentState) (u : List SortEntry → List SortEntry)
      (v : PaginationState → PaginationState) (sel : List String),
      (onSortingChangeOp s u).1.pagination = s.pagination ∧
      (onPaginationChangeOp s v).1 = s ∧
      (onRowSelectionChangeOp s sel).1.pagination = s.pagination := by
  intro s u v sel
  exact ⟨rfl, rfl, rfl⟩

/-! ## Theorems for the search claims -/

/-- C1 counterexample: the claim "every search emission is gated by the
debounce, including clearing the search" is false: clicking the clear button
(enabled in the concrete state, since a filter is set) invokes
`onSearchChange("", [])` at the click itself, which is not a
debounce-settling step. -/
theorem c1ClearEmissionCounterexample :
    ¬ (∀ (cols : List SearchColumn) (s : SearchState) (e : SEvent),
          (sstep cols s e).2 ≠ [] → settleStep s e) ∧
    clearDisabled demoClearableState = false ∧
    (sstep demoSearchCols demoClearableState SEvent.clear).2 = [("", [])] := by
  refine ⟨?_, rfl, rfl⟩
  intro h
  have hs := h demoSearchCols demoClearableState SEvent.clear (by simp [sstep])
  exact SEvent.noConfusion hs.1

/-- C1 amended: emissions driven by edits to the search text are gated by the
debounce: a typing event itself never emits, and a clock tick emits only when
the pending quiescence window elapses.  (The clear-search path, and toggling
an active column, emit synchronously, bypassing the debounce.) -/
theorem c1DebounceGatedAmended :
    ∀ (cols : List SearchColumn) (s : SearchState),
      (∀ c v, (sstep cols s (SEvent.input c v)).2 = []) ∧
      ((sstep cols s SEvent.tick).2 ≠ [] → settleStep s SEvent.tick) := by
  intro cols s
  constructor
  · intro c v; rfl
  · intro hne
    cases ht : s.timer with
    | none => exact absurd (by simp [sstep, ht]) hne
    | some n =>
      by_cases hn : n ≤ 1
      · exact ⟨rfl, n, ht, hn⟩
      · exact absurd (by simp [sstep, ht, hn]) hne

/-- C1 amended witness: typing never emits, and at the concrete state whose
timer has one tick left, the tick emits and is a settling step. -/
theorem c1DebounceGatedAmendedWitness :
    (sstep demoSearchCols demoTickState (SEvent.input "name" "joh")).2 = [] ∧
    settleStep demoTickState SEvent.tick :=
  ⟨(c1DebounceGatedAmended demoSearchCols demoTickState).1 "name" "joh",
   (c1DebounceGatedAmended demoSearchCols demoTickState).2 (by simp [sstep, demoTickState])⟩

/-- C6 counterexample: the claim that the emission reaching the external
`onSearchChange` boundary of the server-side table carries exactly the
currently active search-column ids is false: with columns `name` and `email`
configured but only `name` active, the inner emission carries `["name"]`
while the boundary emission carries `["name", "email"]`. -/
theorem c6ActiveColumnsCounterexample :
    ¬ (∀ (cols : List SearchColumn) (s : SearchState),
          (boundarySearchEmission cols s).2 = (effectEmission cols s).2) :=
  fun h => absurd (h demoSearchCols demoClearableState) (by decide)

/-- C6 amended: the emission reaching the external `onSearchChange` boundary
of the server-side table always carries the ids of all configured search
columns, independent of which columns the user has selected as active (the
wrapper `handleSearchChange` drops the active-column list computed by the
search component). -/
theorem c6BoundaryColumnsAmended :
    ∀ (cols : List SearchColumn) (s t : SearchState),
      (boundarySearchEmission cols s).2 = cols.map (fun c => c.column) ∧
      (boundarySearchEmission cols s).2 = (boundarySearchEmission cols t).2 := by
  intro cols s t
  exact ⟨rfl, rfl⟩

/-! ## Theorems for the filter claims -/

/-- C5: a date-range filter on column `c` with both bounds set, and no select
filters, yields a combined mapping holding exactly the keys `cStart` and
`cEnd` with the bounds rendered in the fixed `YYYY-MM-DD` form; evaluated in
particular at `createdAt` with `from = 2024-01-05`, `to = 2024-01-10`. -/
theorem c5DateRangeEmission :
    ∀ (c : String) (f t : CalDate),
      allFiltersOf [] [(c, { rangeFrom := some f, rangeTo := some t })] =
        [(c ++ "Start", formatEnCA f), (c ++ "End", formatEnCA t)] ∧
      allFiltersOf []
          [("createdAt",
            { rangeFrom := some { year := 2024, month := 1, day := 5 },
              rangeTo := some { year := 2024, month := 1, day := 10 } })] =
        [("createdAtStart", "2024-01-05"), ("createdAtEnd", "2024-01-10")] := by
  intro c f t
  constructor
  · simp [allFiltersOf, mergeSpread, dateFiltersOf, lookupKey]
  · decide

/-- Helper: the branch of `handleFiltersUpdate` that fires the callback. -/
theorem handleFiltersUpdateEmit (prev : String)
    (sv : List (String × String)) (rv : List (String × DateRange))
    (h : jsonStringify (allFiltersOf sv rv) ≠ prev) :
    handleFiltersUpdate prev sv rv =
      (jsonStringify (allFiltersOf sv rv), some (allFiltersOf sv rv)) := by
  simp [handleFiltersUpdate, h]

/-- Helper: the branch of `handleFiltersUpdate` that suppresses the
callback. -/
theorem handleFiltersUpdateSkip (prev : String)
    (sv : List (String × String)) (rv : List (String × DateRange))
    (h : jsonStringify (allFiltersOf sv rv) = prev) :
    handleFiltersUpdate prev sv rv = (prev, none) := by
  simp [handleFiltersUpdate, h]

/-- Helper invariant for the emission trace: the emissions of a run are
pairwise distinct at adjacent positions, and the first emission, if any,
serializes differently from the incoming `previousFiltersRef` value. -/
theorem filtersRunChain
    (us : List (List (String × String) × List (String × DateRange))) :
    ∀ prev : String,
      List.Chain' (fun a b => a ≠ b) (filtersRun prev us).2 ∧
      (∀ e, ((filtersRun prev us).2).head? = some e → jsonStringify e ≠ prev) := by
  induction us with
  | nil =>
    intro prev
    refine ⟨by simp [filtersRun], ?_⟩
    intro e he
    simp [filtersRun] at he
  | cons u us ih =>
    intro prev
    by_cases h : jsonStringify (allFiltersOf u.1 u.2) ≠ prev
    · have hrun : filtersRun prev (u :: us) =
          ((filtersRun (jsonStringify (allFiltersOf u.1 u.2)) us).1,
            allFiltersOf u.1 u.2 ::
              (filtersRun (jsonStringify (allFiltersOf u.1 u.2)) us).2) := by
        rw [filtersRun, handleFiltersUpdateEmit prev u.1 u.2 h]
      obtain ⟨ihChain, ihHead⟩ := ih (jsonStringify (allFiltersOf u.1 u.2))
      constructor
      · rw [hrun]
        refine List.chain'_cons'.mpr ⟨?_, ihChain⟩
        intro b hb hab
        exact ihHead b hb (by rw [← hab])
      · intro e he
        rw [hrun] at he
        simp at he
        rw [← he]
        exact h
    · push_neg at h
      have hrun : filtersRun prev (u :: us) = filtersRun prev us := by
        rw [filtersRun, handleFiltersUpdateSkip prev u.1 u.2 h]
      rw [hrun]
      exact ih prev

/-- C10: over any sequence of debounced filter updates, the filter component
never fires `onFiltersChange` twice in succession with equal combined
mappings: adjacent emissions in the trace are always distinct. -/
theorem c10NoConsecutiveDuplicateEmissions
    (updates : List (List (String × String) × List (String × DateRange))) :
    List.Chain' (fun a b => a ≠ b) (filtersRun "" updates).2 :=
  (filtersRunChain updates "").1

end DataTable
